import Mathlib

/-!
Shallow embedding of the core of the `nerve` agent (files
`src/agent/generator/mod.rs`, `src/agent/task/mod.rs` and
`src/api/ollama/generation/functions/pipelines/mod.rs`).

The two process-wide regular expressions of `generator/mod.rs`,

  RETRY_TIME_PARSER  = (?m)^.+try again in (.+)\. Visit.*
  CONN_RESET_PARSER  = (?m)^.+onnection reset by peer.*

are embedded as explicit scanning functions over `List Char`.  With the
multiline flag `(?m)`, `^` anchors at the start of the string and after every
newline, and `.` never matches a newline, so every match lies inside one
line; the Rust `regex` crate uses leftmost-first (Perl-like) semantics, so
`captures_iter(..).next()` returns the match on the earliest line that
matches, with each greedy `.+` taking the longest extent that lets the rest
of the pattern match.  The embedding below reproduces exactly that: lines in
order, the literal `try again in ` at its latest feasible position with at
least one character before it on the line, and the literal `. Visit` at its
latest position that leaves the capture group non-empty.
-/

namespace Nerve

/-- All indices `i` at which `pat` occurs in `s` (that is, `pat` is a prefix
of `s.drop i`), in increasing order. -/
def findOccs (pat s : List Char) : List Nat :=
  (List.range (s.length + 1)).filter (fun i => pat.isPrefixOf (s.drop i))

/-- Split a character list into its lines: the segments separated by the
newline character.  These are exactly the regions a `(?m)`-anchored,
newline-free regex match can occupy. -/
def splitLines : List Char → List (List Char)
  | [] => [[]]
  | c :: cs =>
    if c = '\n' then [] :: splitLines cs
    else
      match splitLines cs with
      | [] => [[c]]
      | l :: ls => (c :: l) :: ls

/-- Literal `try again in ` of RETRY_TIME_PARSER (13 characters). -/
def tryAgainPat : List Char := "try again in ".toList

/-- Literal `. Visit` of RETRY_TIME_PARSER (7 characters). -/
def visitPat : List Char := ". Visit".toList

/-- Literal `onnection reset by peer` of CONN_RESET_PARSER. -/
def connResetPat : List Char := "onnection reset by peer".toList

/-- Capture group of `^.+try again in (.+)\. Visit.*` on a single line, with
leftmost-first greedy semantics: the leading `.+` ends before the latest
occurrence of `try again in ` (at index at least 1) for which the rest of
the pattern still matches, and the group then extends to the latest
occurrence of `. Visit` that keeps the group non-empty. -/
def lineRetryCapture (l : List Char) : Option (List Char) :=
  ((findOccs tryAgainPat l).filter (fun i => decide (1 ≤ i))).reverse.findSome?
    (fun i =>
      let r := l.drop (i + tryAgainPat.length)
      match ((findOccs visitPat r).filter (fun j => decide (1 ≤ j))).getLast? with
      | some j => some (r.take j)
      | none => none)

/-- Content of capture group 1 of the first match of RETRY_TIME_PARSER in
`s`, when the regex matches (`captures_iter(s).next()` in the source). -/
def RETRY_TIME_PARSER_capture (s : String) : Option String :=
  ((splitLines s.toList).findSome? lineRetryCapture).map (fun cs => String.mk cs)

/-- Match of `^.+onnection reset by peer.*` on one line: the literal occurs
at an index of at least 1 (the leading `.+` needs one character). -/
def connLineMatch (l : List Char) : Bool :=
  !((findOccs connResetPat l).filter (fun i => decide (1 ≤ i))).isEmpty

/-- Whether CONN_RESET_PARSER matches `s`: some line matches. -/
def CONN_RESET_PARSER_matches (s : String) : Bool :=
  (splitLines s.toList).any connLineMatch

/-- Boolean substring test, used only to state claims that speak of an error
string "containing" a literal. -/
def containsStr (s pat : String) : Bool :=
  !(findOccs pat.toList s.toList).isEmpty

/-! ### Duration parsing

Modelled from the spec: the `duration_string` crate that implements
`retry_time_str.parse::<DurationString>()` is a dependency whose source is
not under `src/`.  Following the spec's description of it ("The duration is
free-form (e.g. `3m2.5s`); fractional seconds are not parseable as a
duration token", and `3m2s` parses to 3 minutes 2 seconds) and the crate's
documented format, a duration string is one or more groups, each a non-empty
run of decimal digits followed by a unit among ns, us, ms, s, m, h, d, w, y;
the value is the sum of the groups.  Anything else — in particular a
fractional value such as `2.838s`, whose `.` lands in the unit run — fails
to parse.  The result is in nanoseconds. -/

/-- Nanoseconds per unit name, `none` for an unknown unit run. -/
def durUnitNanos : List Char → Option Nat
  | ['n', 's'] => some 1
  | ['u', 's'] => some 1000
  | ['m', 's'] => some 1000000
  | ['s'] => some 1000000000
  | ['m'] => some 60000000000
  | ['h'] => some 3600000000000
  | ['d'] => some 86400000000000
  | ['w'] => some 604800000000000
  | ['y'] => some 31536000000000000
  | _ => none

/-- Value of a run of decimal digits. -/
def digitsVal (ds : List Char) : Nat :=
  ds.foldl (fun acc c => acc * 10 + (c.toNat - 48)) 0

/-- Modelled from the spec: one parsing step of the `duration_string` crate.
Fuel-indexed recursion; every recursive call strictly shrinks the input (a
group consumes at least two characters), so fuel `length + 1` is exact. -/
def parseDurAux : Nat → List Char → Option Nat
  | 0, _ => none
  | fuel + 1, cs =>
    let ds := cs.takeWhile Char.isDigit
    let r1 := cs.dropWhile Char.isDigit
    let us := r1.takeWhile (fun c => !c.isDigit)
    let r2 := r1.dropWhile (fun c => !c.isDigit)
    if ds.isEmpty then none
    else
      match durUnitNanos us with
      | none => none
      | some u =>
        if r2.isEmpty then some (digitsVal ds * u)
        else
          match parseDurAux fuel r2 with
          | none => none
          | some rest => some (digitsVal ds * u + rest)

/-- Modelled from the spec: `s.parse::<DurationString>()`, in nanoseconds. -/
def parseDurationString (s : String) : Option Nat :=
  parseDurAux (s.toList.length + 1) s.toList

/-- Truncation step of `check_rate_limit`: if the captured text contains a
dot, keep only the part before the first dot and append `s`
(`retry_time_str.split_once('.')` followed by `format!`). -/
def truncateFractional (s : String) : String :=
  if s.toList.contains '.' then
    String.mk ((s.toList.takeWhile (fun c => c != '.')) ++ ['s'])
  else s

/-- Outcome of one `check_rate_limit` call: the returned boolean and exactly
the duration slept (in nanoseconds), `none` when no sleep happens. -/
structure RateLimitDecision where
  retry : Bool
  waitNs : Option Nat
deriving Repr, DecidableEq

/-- Default body of `Client::check_rate_limit` from
`src/agent/generator/mod.rs`.  On a RETRY_TIME_PARSER match the capture is
truncated at its first dot, parsed as a duration, and on success the code
sleeps that duration plus 1000 ms and returns true; on parse failure it
returns false without reaching the connection-reset branch.  Otherwise, on a
CONN_RESET_PARSER match it sleeps 5 s and returns true; otherwise it returns
false.  (The source's `caps.len() == 2` guard always holds on a match, the
pattern having exactly one group.) -/
def check_rate_limit (error : String) : RateLimitDecision :=
  match RETRY_TIME_PARSER_capture error with
  | some cap =>
    match parseDurationString (truncateFractional cap) with
    | some ns => { retry := true, waitNs := some (ns + 1000000000) }
    | none => { retry := false, waitNs := none }
  | none =>
    if CONN_RESET_PARSER_matches error then
      { retry := true, waitNs := some 5000000000 }
    else
      { retry := false, waitNs := none }

/-! ### Client factory

The source builds `factory` and `factory_embedder` by expanding the single
`factory_body!` macro: a match on the backend name that dispatches to one of
the five backend constructors (`ollama`, `openai`, `fireworks`, `hf`,
`groq`, in that order; all provider features enabled, as the spec's registry
lists all five) and falls through to
`Err(anyhow!("generator '{}' not supported yet", name))` for every other
name.  The backend modules themselves are not under `src/`, so a chosen arm
is represented by the selected backend kind together with the connection
parameters forwarded to its constructor. -/

/-- Backends of the static registry, in source order. -/
inductive BackendKind
  | ollama
  | openai
  | fireworks
  | hf
  | groq
deriving Repr, DecidableEq

/-- Connection parameters forwarded unchanged to the chosen constructor
(`port` is u16 and `context_window` u32 in the source; both are forwarded
without arithmetic, so plain naturals are faithful). -/
structure ConnParams where
  url : String
  port : Nat
  model_name : String
  context_window : Nat
deriving Repr, DecidableEq

/-- Result of a factory call: either the dispatched backend constructor with
its arguments, or the explicit unsupported-backend error. -/
inductive FactoryResult
  | client (kind : BackendKind) (params : ConnParams)
  | unsupported (msg : String)
deriving Repr, DecidableEq

/-- Expansion of the `factory_body!` macro. -/
def factory_body (name : String) (p : ConnParams) : FactoryResult :=
  if name = "ollama" then .client .ollama p
  else if name = "openai" then .client .openai p
  else if name = "fireworks" then .client .fireworks p
  else if name = "hf" then .client .hf p
  else if name = "groq" then .client .groq p
  else .unsupported ("generator '" ++ name ++ "' not supported yet")

/-- `factory`: selects a chat-capable client (`Box<dyn Client>`). -/
def factory (name url : String) (port : Nat) (model_name : String)
    (context_window : Nat) : FactoryResult :=
  factory_body name ⟨url, port, model_name, context_window⟩

/-- `factory_embedder`: the parallel registry that exposes the same
backends as embedding providers (`Box<dyn mini_rag::Embedder>`); its body is
the same `factory_body!` expansion. -/
def factory_embedder (name url : String) (port : Nat) (model_name : String)
    (context_window : Nat) : FactoryResult :=
  factory_body name ⟨url, port, model_name, context_window⟩

/-! ### Conversation model and the Client trait -/

/-- Modelled from the spec: `Invocation` (external type, consumed and
produced only): a name, an argument mapping, an optional payload and an
optional result. -/
structure Invocation where
  action : String
  attributes : List (String × String)
  payload : Option String
  result : Option String

/-- Message history entry from `src/agent/generator/mod.rs`: an agent turn
or a feedback turn, each with text and an optional invocation. -/
inductive Message
  | Agent (text : String) (invocation : Option Invocation)
  | Feedback (text : String) (invocation : Option Invocation)

/-- Display implementation of `Message`. -/
def Message.display : Message → String
  | .Agent data _ => "[agent]\n\n" ++ data ++ "\n"
  | .Feedback data _ => "[feedback]\n\n" ++ data ++ "\n"

/-- `ChatOptions` from `src/agent/generator/mod.rs`. -/
structure ChatOptions where
  system_prompt : String
  prompt : String
  history : List Message

/-- `ChatOptions::new`. -/
def ChatOptions.new (system_prompt prompt : String) (history : List Message) :
    ChatOptions :=
  ⟨system_prompt, prompt, history⟩

/-- Modelled from the spec: the read-only shared agent state passed to
`chat` (`src/agent/state` is not under `src/`); its content is irrelevant
here. -/
structure SharedState where

/-- The `Client` trait of `src/agent/generator/mod.rs`.  `chat` is the one
required turn method; `check_tools_support` has the default body
`Ok(false)`.  The associated constructor `new` and the default method
`check_rate_limit` (whose body is the top-level `check_rate_limit` above,
overridden by no implementation found in `src/`) are kept outside the
structure. -/
structure Client where
  chat : SharedState → ChatOptions → Except String (String × List Invocation)
  check_tools_support : Except String Bool := Except.ok false

/-! ### Tool-call extraction protocol
(`src/api/ollama/generation/functions/pipelines/mod.rs`) -/

/-- Modelled from the spec: a tool descriptor (name, description, parameter
schema). -/
structure Tool where
  name : String
  description : String
  parameters : List (String × String)

/-- Modelled from the spec: a chat message of the Ollama API layer (its
exact fields are not under `src/` and are irrelevant here). -/
structure ChatMessage where
  role : String
  content : String

/-- Modelled from the spec: the structured response shape shared by `parse`
and `error_handler` (exact fields not under `src/`). -/
structure ChatMessageResponse where
  message : Option ChatMessage

/-- Modelled from the spec: a lower-level provider error (exact fields not
under `src/`). -/
structure OllamaError where
  message : String

/-- The `RequestParserBase` trait.  `format_query` and `format_response`
have default bodies `input.to_string()` and `response.to_string()` — on a
string slice, a copy with identical content, so the identity here. -/
structure RequestParserBase where
  parse : String → String → List Tool → Except ChatMessageResponse ChatMessageResponse
  format_query : String → String := fun input => input
  format_response : String → String := fun response => response
  get_system_message : List Tool → ChatMessage
  error_handler : OllamaError → ChatMessageResponse

/-! ### Task trait (`src/agent/task/mod.rs`) -/

/-- Modelled from the spec: a tool namespace (`agent/namespaces` is not
under `src/`); opaque here. -/
structure Namespace where

/-- The `Task` trait.  `max_history_visibility` has the default body `50`
(u16 in the source; 50 is far below the width, so a natural is faithful) and
`namespaces` the default body `None`.  The `guidance`/`base_guidance`
defaults are omitted: they read `basic_guidance.prompt`, a file not under
`src/`, and no claim concerns them. -/
structure Task where
  to_system_prompt : Except String String
  to_prompt : Except String String
  get_functions : List Namespace
  max_history_visibility : Nat := 50
  namespaces : Option (List String) := none

/-! ### Helper lemmas

A string that contains a newline-free pattern contains it inside one of its
lines; this carries the substring form of the connection-reset claim over to
the per-line regex model. -/

theorem splitLines_ne_nil (cs : List Char) : splitLines cs ≠ [] := by
  induction cs with
  | nil => simp [splitLines]
  | cons c cs ih =>
    simp only [splitLines]
    split
    · simp
    · split <;> simp

theorem splitLines_append (p b : List Char) (hp : '\n' ∉ p) :
    ∃ l ls, splitLines b = l :: ls ∧ splitLines (p ++ b) = (p ++ l) :: ls := by
  induction p with
  | nil =>
    cases hb : splitLines b with
    | nil => exact absurd hb (splitLines_ne_nil b)
    | cons l ls => exact ⟨l, ls, rfl, by simp [hb]⟩
  | cons c p ih =>
    have hc : c ≠ '\n' := fun h => hp (h ▸ List.mem_cons_self c p)
    have hp' : '\n' ∉ p := fun h => hp (List.mem_cons_of_mem c h)
    obtain ⟨l, ls, hb, hpb⟩ := ih hp'
    refine ⟨l, ls, hb, ?_⟩
    simp only [List.cons_append, splitLines, hc, if_false, List.append_eq]
    rw [hpb]

theorem exists_line_of_decomp (p : List Char) (hp : '\n' ∉ p) (a b : List Char) :
    ∃ l x y, l ∈ splitLines (a ++ (p ++ b)) ∧ l = x ++ p ++ y := by
  induction a with
  | nil =>
    obtain ⟨l, ls, hb, hpb⟩ := splitLines_append p b hp
    refine ⟨p ++ l, [], l, ?_, by simp⟩
    simp [hpb]
  | cons c a ih =>
    obtain ⟨l, x, y, hmem, hdecomp⟩ := ih
    by_cases hc : c = '\n'
    · refine ⟨l, x, y, ?_, hdecomp⟩
      simp only [List.cons_append, splitLines, hc, if_true]
      exact List.mem_cons_of_mem _ hmem
    · cases hr : splitLines (a ++ (p ++ b)) with
      | nil => exact absurd hr (splitLines_ne_nil _)
      | cons l0 ls0 =>
        rw [hr] at hmem
        have hsplit : splitLines ((c :: a) ++ (p ++ b)) = (c :: l0) :: ls0 := by
          simp only [List.cons_append, splitLines, hc, if_false, List.append_eq]
          rw [hr]
        rcases List.mem_cons.mp hmem with rfl | htail
        · exact ⟨c :: l, c :: x, y, by rw [hsplit]; exact List.mem_cons_self _ _,
            by rw [hdecomp]; simp⟩
        · exact ⟨l, x, y, by rw [hsplit]; exact List.mem_cons_of_mem _ htail, hdecomp⟩

theorem connLineMatch_of_decomp (l x y : List Char) (c : Char)
    (hl : l = x ++ (c :: connResetPat) ++ y) : connLineMatch l = true := by
  have hocc : (x.length + 1) ∈ findOccs connResetPat l := by
    simp only [findOccs, List.mem_filter, List.mem_range]
    constructor
    · subst hl; simp [List.length_append]
    · subst hl
      have hassoc : x ++ (c :: connResetPat) ++ y = (x ++ [c]) ++ (connResetPat ++ y) := by
        simp
      rw [hassoc]
      have hlen : (x ++ [c]).length = x.length + 1 := by simp
      rw [← hlen, List.drop_left]
      exact List.isPrefixOf_iff_prefix.mpr (List.prefix_append _ _)
  have hmemf : (x.length + 1) ∈ (findOccs connResetPat l).filter (fun i => decide (1 ≤ i)) :=
    List.mem_filter.mpr ⟨hocc, by simp⟩
  have hne := List.ne_nil_of_mem hmemf
  rcases List.exists_cons_of_ne_nil hne with ⟨h0, t0, heq⟩
  simp [connLineMatch, heq]

theorem contains_decomp (s pat : String) (h : containsStr s pat = true) :
    ∃ a b, s.toList = a ++ (pat.toList ++ b) := by
  unfold containsStr at h
  rcases hocc : findOccs pat.toList s.toList with _ | ⟨i, is⟩
  · rw [hocc] at h; simp at h
  · have hi : i ∈ findOccs pat.toList s.toList := by
      rw [hocc]; exact List.mem_cons_self _ _
    simp only [findOccs, List.mem_filter, List.mem_range] at hi
    obtain ⟨-, hpre⟩ := hi
    obtain ⟨t, ht⟩ := List.isPrefixOf_iff_prefix.mp hpre
    refine ⟨s.toList.take i, t, ?_⟩
    conv_lhs => rw [← List.take_append_drop i s.toList]
    rw [← ht]

theorem conn_matches_of_contains (s : String) (c : Char) (hc : c ≠ '\n')
    (a b : List Char) (h : s.toList = a ++ ((c :: connResetPat) ++ b)) :
    CONN_RESET_PARSER_matches s = true := by
  have hp : '\n' ∉ (c :: connResetPat) := by
    intro hmem
    rcases List.mem_cons.mp hmem with h1 | h2
    · exact hc h1.symm
    · revert h2; decide
  obtain ⟨l, x, y, hmem, hdec⟩ := exists_line_of_decomp (c :: connResetPat) hp a b
  rw [← h] at hmem
  have hmatch := connLineMatch_of_decomp l x y c hdec
  unfold CONN_RESET_PARSER_matches
  exact List.any_eq_true.mpr ⟨l, hmem, hmatch⟩


/-! ### Claims -/

/-- C1: For every error string matching the rate-limit pattern
`... try again in <duration>. Visit ...` with duration `3m2.838s`,
`check_rate_limit` truncates the fractional suffix (`3m2.838s` becomes
`3m2s`, 3 minutes 2 seconds), waits that duration plus 1000 milliseconds
(183 s in total) and signals retry (returns true). -/
theorem C1_rate_limit_truncated_retry (e : String)
    (h : RETRY_TIME_PARSER_capture e = some "3m2.838s") :
    truncateFractional "3m2.838s" = "3m2s" ∧
    parseDurationString "3m2s" = some 182000000000 ∧
    check_rate_limit e = { retry := true, waitNs := some 183000000000 } := by
  refine ⟨by decide, by decide, ?_⟩
  simp only [check_rate_limit, h]
  decide

/-- C1 witness: a concrete error string whose capture is `3m2.838s`. -/
theorem C1_rate_limit_truncated_retry_witness :
    RETRY_TIME_PARSER_capture
        "Rate limited, try again in 3m2.838s. Visit https://console" =
      some "3m2.838s" ∧
    (truncateFractional "3m2.838s" = "3m2s" ∧
     parseDurationString "3m2s" = some 182000000000 ∧
     check_rate_limit "Rate limited, try again in 3m2.838s. Visit https://console" =
       { retry := true, waitNs := some 183000000000 }) :=
  ⟨by decide, C1_rate_limit_truncated_retry _ (by decide)⟩

/-- C2 counterexample: the claim "every error string containing
`connection reset by peer` makes `check_rate_limit` signal retry" is false:
a string that also matches the rate-limit pattern with an unparsable
duration takes the rate-limit branch first and returns false. -/
theorem C2_contains_conn_reset_counterexample :
    containsStr "x try again in zzz. Visit connection reset by peer"
        "connection reset by peer" = true ∧
    check_rate_limit "x try again in zzz. Visit connection reset by peer" =
      { retry := false, waitNs := none } := by
  constructor <;> decide

/-- C2 amended: for every error string containing
`connection reset by peer` or `Connection reset by peer` on which the
rate-limit pattern does not match, `check_rate_limit` waits a fixed 5
seconds and signals retry (returns true). -/
theorem C2_conn_reset_retry_amended (e : String)
    (hc : containsStr e "connection reset by peer" = true ∨
          containsStr e "Connection reset by peer" = true)
    (hr : RETRY_TIME_PARSER_capture e = none) :
    check_rate_limit e = { retry := true, waitNs := some 5000000000 } := by
  have hm : CONN_RESET_PARSER_matches e = true := by
    rcases hc with hc | hc
    · obtain ⟨a, b, hab⟩ := contains_decomp e "connection reset by peer" hc
      have hchar : "connection reset by peer".toList = 'c' :: connResetPat := by decide
      rw [hchar] at hab
      exact conn_matches_of_contains e 'c' (by decide) a b hab
    · obtain ⟨a, b, hab⟩ := contains_decomp e "Connection reset by peer" hc
      have hchar : "Connection reset by peer".toList = 'C' :: connResetPat := by decide
      rw [hchar] at hab
      exact conn_matches_of_contains e 'C' (by decide) a b hab
  unfold check_rate_limit
  rw [hr]
  simp [hm]

/-- C2 witness: a concrete connection-reset error string. -/
theorem C2_conn_reset_retry_amended_witness :
    check_rate_limit "read tcp 1.2.3.4: connection reset by peer" =
      { retry := true, waitNs := some 5000000000 } :=
  C2_conn_reset_retry_amended _ (Or.inl (by decide)) (by decide)

/-- C3 counterexample: on
`rate limit exceeded, try again in 1.5s. Visit https://...` the code waits
exactly 2 s (`1.5s` is truncated to `1s` before the 1000 ms is added), which
falls short of the claimed approximately 2.5 s by 500 ms — at least 400 ms,
so outside any reasonable reading of "approximately". -/
theorem C3_wait_counterexample :
    (check_rate_limit "rate limit exceeded, try again in 1.5s. Visit https://...").waitNs =
      some 2000000000 ∧
    2000000000 + 400000000 ≤ 2500000000 := by
  constructor <;> decide

/-- C3 amended: on the error string
`rate limit exceeded, try again in 1.5s. Visit https://...`,
`check_rate_limit` waits exactly 2 seconds (the captured `1.5s` is truncated
to `1s`, then 1000 ms is added) and signals retry (returns true). -/
theorem C3_scenario_waits_two_seconds :
    check_rate_limit "rate limit exceeded, try again in 1.5s. Visit https://..." =
      { retry := true, waitNs := some 2000000000 } := by
  decide

/-- C4: for every error string matching the rate-limit pattern whose
captured (and, if it contains a dot, truncated) duration text fails to parse
as a duration, `check_rate_limit` signals no-retry (returns false, sleeping
nothing). -/
theorem C4_parse_failure_no_retry (e cap : String)
    (h : RETRY_TIME_PARSER_capture e = some cap)
    (hp : parseDurationString (truncateFractional cap) = none) :
    check_rate_limit e = { retry := false, waitNs := none } := by
  unfold check_rate_limit
  rw [h]
  simp only [hp]

/-- C4 witness: a rate-limit match whose duration text `zzz` is unparsable. -/
theorem C4_parse_failure_no_retry_witness :
    RETRY_TIME_PARSER_capture "err try again in zzz. Visit docs" = some "zzz" ∧
    parseDurationString (truncateFractional "zzz") = none ∧
    check_rate_limit "err try again in zzz. Visit docs" =
      { retry := false, waitNs := none } :=
  ⟨by decide, by decide,
    C4_parse_failure_no_retry "err try again in zzz. Visit docs" "zzz"
      (by decide) (by decide)⟩

/-- C5: for every error string matching neither the rate-limit pattern nor
the connection-reset pattern, `check_rate_limit` signals no-retry (returns
false, sleeping nothing). -/
theorem C5_neither_pattern_no_retry (e : String)
    (h1 : RETRY_TIME_PARSER_capture e = none)
    (h2 : CONN_RESET_PARSER_matches e = false) :
    check_rate_limit e = { retry := false, waitNs := none } := by
  unfold check_rate_limit
  rw [h1]
  simp [h2]

/-- C5 witness: an ordinary error string matches neither pattern. -/
theorem C5_neither_pattern_no_retry_witness :
    RETRY_TIME_PARSER_capture "some other backend error" = none ∧
    CONN_RESET_PARSER_matches "some other backend error" = false ∧
    check_rate_limit "some other backend error" = { retry := false, waitNs := none } :=
  ⟨by decide, by decide, C5_neither_pattern_no_retry _ (by decide) (by decide)⟩

/-- C6: for every backend name outside the static registry
`ollama`, `openai`, `fireworks`, `hf`, `groq`, `factory` returns the
explicit `generator '<name>' not supported yet` error and never a client; no
default backend is selected. -/
theorem C6_unknown_backend_unsupported (name url : String) (port : Nat)
    (model_name : String) (context_window : Nat)
    (h : name ∉ (["ollama", "openai", "fireworks", "hf", "groq"] : List String)) :
    factory name url port model_name context_window =
      FactoryResult.unsupported ("generator '" ++ name ++ "' not supported yet") := by
  simp only [List.mem_cons, List.not_mem_nil, or_false, not_or] at h
  obtain ⟨h1, h2, h3, h4, h5⟩ := h
  simp [factory, factory_body, h1, h2, h3, h4, h5]

/-- C6 witness: the spec's `unknown-backend` scenario. -/
theorem C6_unknown_backend_unsupported_witness :
    factory "unknown-backend" "http://localhost" 11434 "llama3" 8192 =
      FactoryResult.unsupported ("generator '" ++ "unknown-backend" ++ "' not supported yet") :=
  C6_unknown_backend_unsupported _ _ _ _ _ (by decide)

/-- C7: `factory` and `factory_embedder` are two expansions of the one
`factory_body!` registry: for every name and connection parameters they
agree exactly — same success, same dispatched backend constructor with the
same forwarded parameters, same error. -/
theorem C7_factory_embedder_same_registry :
    ∀ (name url : String) (port : Nat) (model_name : String) (context_window : Nat),
      factory_embedder name url port model_name context_window =
        factory name url port model_name context_window :=
  fun _ _ _ _ _ => rfl

/-- C8: the default implementation of `check_tools_support` returns
`Ok(false)` for every client that does not override it. -/
theorem C8_check_tools_support_default_false :
    ∀ chatFn : SharedState → ChatOptions → Except String (String × List Invocation),
      ({ chat := chatFn } : Client).check_tools_support = Except.ok false :=
  fun _ => rfl

/-- C9: the default implementations of `format_query` and `format_response`
of `RequestParserBase` are the identity on strings. -/
theorem C9_format_defaults_identity :
    ∀ (p : String → String → List Tool → Except ChatMessageResponse ChatMessageResponse)
      (g : List Tool → ChatMessage) (eh : OllamaError → ChatMessageResponse) (s : String),
      ({ parse := p, get_system_message := g, error_handler := eh } :
          RequestParserBase).format_query s = s ∧
      ({ parse := p, get_system_message := g, error_handler := eh } :
          RequestParserBase).format_response s = s :=
  fun _ _ _ _ => ⟨rfl, rfl⟩

/-- C10: for every `Task` that does not override it, the default
`max_history_visibility` is exactly 50. -/
theorem C10_max_history_visibility_default :
    ∀ (tsp tp : Except String String) (gf : List Namespace),
      ({ to_system_prompt := tsp, to_prompt := tp, get_functions := gf } :
          Task).max_history_visibility = 50 :=
  fun _ _ _ => rfl


end Nerve
